import Mathlib

/-!
Verification of the registry synchronization and artifact-fetch engine of
`frontend_only_wake_word_transcriber` (tools/sync_registry_models.py and
tools/add_new_model.py), via a shallow embedding of its data model and
operations in Lean.

Conventions of the embedding:
* JSON records become structures; fields the code reads with `.get(k, default)`
  become `Option` fields with the default applied at the use site.
* The filesystem is a map from destination path to the size of the file stored
  there (`String → Option Nat`); HTTP is an oracle from URL to an abstract
  response (`String → HttpResult`).
* Fallible Python code (raised exceptions that escape the function) becomes
  `Option`; exceptions that are caught become ordinary return values.
* Persisting the registry is modelled by recording the in-memory document at
  the moment of the write; thread-pool concurrency is modelled by processing
  the task list sequentially (the code joins on all futures before deciding,
  and only the multiset of outcomes matters to the decision).
-/

/-- The `source` object of a model record: platform, author, repository, and the
optional `branch` / `release` keys (read in the code with
`.get('branch', 'main')` and `.get('release', 'latest')`). -/
structure Source where
  platform : String
  author : String
  repository : String
  branch : Option String
  release : Option String
deriving DecidableEq

/-- The `status` object of a model record. In the code a present `status` dict may
lack keys; reads use `.get('downloaded', False)` etc., so an empty dict behaves
as `⟨false, false, ""⟩`. -/
structure Status where
  downloaded : Bool
  verified : Bool
  download_date : String
deriving DecidableEq

/-- The `files` object of a model record: required and optional relative paths. -/
structure ModelFiles where
  required : List String
  optional : List String
deriving DecidableEq

/-- One model record of the registry. `type` is optional because statistics
read it with `.get('type', 'asr')`; `status` is optional because the code
checks `'status' not in model`. `size_mb` embeds `specs.size_mb`, read with
`.get('specs', {}).get('size_mb', 0)`. -/
structure Model where
  id : String
  name : String
  type : Option String
  source : Source
  local_path : String
  files : ModelFiles
  status : Option Status
  size_mb : Nat
deriving DecidableEq

/-- The fixed `by_type` counter dictionary of `_update_statistics`. -/
structure ByType where
  asr : Nat
  wakeword : Nat
  vad : Nat
  tts : Nat
  nlp : Nat
deriving DecidableEq

/-- The fixed `by_source` counter dictionary of `_update_statistics`. -/
structure BySource where
  huggingface : Nat
  github : Nat
  loc : Nat
deriving DecidableEq

/-- The `statistics` object of the registry document. -/
structure Statistics where
  total_models : Nat
  by_type : ByType
  by_source : BySource
  total_size_mb : Nat
  downloaded_models : Nat
  pending_models : Nat
deriving DecidableEq

/-- The registry document: `models`, `statistics`, `last_updated`. -/
structure Registry where
  models : List Model
  statistics : Statistics
  last_updated : String
deriving DecidableEq

/-- Embedding of `model.get('status', {}).get('downloaded', False)`. -/
def statusDownloaded (m : Model) : Bool :=
  match m.status with
  | none => false
  | some s => s.downloaded

/-- Embedding of `if 'status' not in model: model['status'] = {}` (sync_registry_models.py
line 246). An empty status dict reads as all-defaults. -/
def ensure_status (m : Model) : Model :=
  match m.status with
  | none => { m with status := some ⟨false, false, ""⟩ }
  | some _ => m

/-- The successful-run status update of `download_model`
(sync_registry_models.py lines 250-252): sets `downloaded`, `verified` and
`download_date` on the (possibly freshly created) status dict. -/
def set_status_success (m : Model) (today : String) : Model :=
  { m with status := some ⟨true, true, today⟩ }

/-- Embedding of `next((m for m in models if m['id'] == model_id), None)` followed by
in-place mutation of the found record: replace the first record with the
given id. -/
def replace_first (models : List Model) (model_id : String) (f : Model → Model) : List Model :=
  match models with
  | [] => []
  | m :: rest =>
    if m.id == model_id then f m :: rest else m :: replace_first rest model_id f

/-- Embedding of `_update_statistics` of add_new_model.py (lines 475-507): recompute every
statistics field from the models list. -/
def update_statistics (reg : Registry) : Registry :=
  let models := reg.models
  let tcount := fun (t : String) =>
    (models.filter (fun m => m.type.getD "asr" == t)).length
  let pcount := fun (p : String) =>
    (models.filter (fun m => m.source.platform == p)).length
  let downloaded := (models.filter (fun m => statusDownloaded m)).length
  { reg with
    statistics :=
      { total_models := models.length
        by_type :=
          { asr := tcount "asr", wakeword := tcount "wakeword", vad := tcount "vad"
            tts := tcount "tts", nlp := tcount "nlp" }
        by_source :=
          { huggingface := pcount "huggingface", github := pcount "github"
            loc := pcount "local" }
        total_size_mb := (models.map (fun m => m.size_mb)).sum
        downloaded_models := downloaded
        pending_models := models.length - downloaded } }

/-- Embedding of `_save_registry` of sync_registry_models.py (lines 49-52): the persisted
document is the in-memory registry, unchanged. -/
def sync_save_registry (reg : Registry) : Registry := reg

/-- Embedding of `_save_registry` of add_new_model.py (lines 87-91): sets `last_updated`
to today, then writes; the persisted document is the returned value. -/
def anm_save_registry (reg : Registry) (today : String) : Registry :=
  { reg with last_updated := today }

/-- The persist tail of add_new_model.py's `download_model` (lines 324-328):
`_update_statistics()` directly followed by `_save_registry()`. This is the
only call site of add_new_model's `_save_registry` in an orchestration run. -/
def anm_finalize (reg : Registry) (today : String) : Registry :=
  anm_save_registry (update_statistics reg) today

/-- Embedding of `_get_download_url` of sync_registry_models.py (lines 75-111). `none`
models the `ValueError` raised on an unsupported platform. Grouping of the
string concatenations is chosen with the constant scheme-and-host prefix
first; the characters produced are exactly those of the f-strings. -/
def get_download_url (m : Model) (file_path : String) : Option String :=
  if m.source.platform = "huggingface" then
    some ("https://huggingface.co/" ++
      (m.source.author ++ "/" ++ m.source.repository ++ "/resolve/main/" ++ file_path))
  else if m.source.platform = "github" then
    let author := m.source.author
    let repo := m.source.repository
    let branch := m.source.branch.getD "main"
    if repo = "openWakeWord" then
      let release := m.source.release.getD "latest"
      if release ≠ "latest" then
        some ("https://github.com/" ++
          (author ++ "/" ++ repo ++ "/releases/download/" ++ release ++ "/" ++ file_path))
      else
        some ("https://github.com/" ++
          (author ++ "/" ++ repo ++ "/raw/" ++ branch ++ "/models/" ++ file_path))
    else
      some ("https://raw.githubusercontent.com/" ++
        (author ++ "/" ++ repo ++ "/" ++ branch ++ "/" ++ file_path))
  else none

/-- Embedding of `build_file_url` of add_new_model.py (lines 202-204). The `branch`
parameter defaults to `"main"` at every call site in the file. -/
def build_file_url (owner model file_path branch : String) : String :=
  "https://huggingface.co/" ++
    (owner ++ "/" ++ model ++ ("/resolve/" ++ branch ++ "/") ++ file_path)

/-- Result of streaming a 2xx response body: either the full body of `n`
bytes was written, or the stream (or local write) failed after `k` partial
bytes had been written to the open destination file. -/
inductive Body where
  | full (bytes : Nat)
  | interrupted (partialBytes : Nat)
deriving DecidableEq

/-- Abstract disposition of one HTTP GET: the request itself may fail before
any response (`noResponse`), or a response with a status code arrives and its
body streams with the given outcome. -/
inductive HttpResult where
  | noResponse
  | response (status : Nat) (body : Body)
deriving DecidableEq

/-- The three shapes of message `_download_file` of sync_registry_models.py
returns: "Already exists: …", "Downloaded: …", and the failure message built
from the caught exception. -/
inductive SyncMsg where
  | alreadyExists
  | downloaded
  | failedDownload
deriving DecidableEq

/-- Return of the embedded `_download_file`: the success flag and message the
function returns, the content at the destination path afterwards, and whether
a network request was issued. -/
structure FetchReturn where
  success : Bool
  msg : SyncMsg
  fsAfter : Option Nat
  networkUsed : Bool
deriving DecidableEq

/-- Embedding of `_download_file` of sync_registry_models.py (lines 113-164), as a function
of the current content at the destination (`dest`) and the disposition of the
GET (`r`). An existing destination returns success with no network call;
`raise_for_status` raises on status ≥ 400 before the file is opened; a stream
failure after partial bytes is caught and the partial file unlinked. -/
def sync_download_file (dest : Option Nat) (r : HttpResult) : FetchReturn :=
  match dest with
  | some n => ⟨true, .alreadyExists, some n, false⟩
  | none =>
    match r with
    | .noResponse => ⟨false, .failedDownload, none, true⟩
    | .response status body =>
      if 400 ≤ status then ⟨false, .failedDownload, none, true⟩
      else
        match body with
        | .full n => ⟨true, .downloaded, some n, true⟩
        | .interrupted _ => ⟨false, .failedDownload, none, true⟩

/-- The per-file report `download_file` of add_new_model.py prints (lines
186-199, with `show_progress=False` as the orchestrator calls it): a check
mark on success, a distinct "(not found)" skip marker on 404, "(HTTP code)"
on any other non-2xx status, and the exception text otherwise. -/
inductive AnmReport where
  | okMark
  | notFoundSkip
  | httpFail (code : Nat)
  | otherFail
deriving DecidableEq

/-- Return of the embedded add_new_model `download_file`: `ret` is the value
returned to the caller (the Python function returns only a bool), `fsAfter`
the content at the destination afterwards, `printed` the report emitted. -/
structure AnmFetch where
  ret : Bool
  fsAfter : Option Nat
  printed : AnmReport
deriving DecidableEq

/-- Embedding of `download_file` of add_new_model.py (lines 159-200), as a function of the
prior content at the destination and the disposition of the GET. There is no
existing-file check: the destination is opened with `'wb'` and overwritten.
On `raise_for_status` failure nothing has been written (`dest` unchanged); a
stream failure after `k` partial bytes leaves a `k`-byte file — no cleanup. -/
def anm_download_file (dest : Option Nat) (r : HttpResult) : AnmFetch :=
  match r with
  | .noResponse => ⟨false, dest, .otherFail⟩
  | .response status body =>
    if 400 ≤ status then
      ⟨false, dest, if status = 404 then .notFoundSkip else .httpFail status⟩
    else
      match body with
      | .full n => ⟨true, some n, .okMark⟩
      | .interrupted k => ⟨false, some k, .otherFail⟩

/-- The task-list construction of `download_model` (sync_registry_models.py
lines 199-210): required files tagged `true`, then, when `include_optional`,
optional files tagged `false`. -/
def collect_tasks (m : Model) (includeOptional : Bool) : List (String × Bool) :=
  m.files.required.map (fun f => (f, true)) ++
    (if includeOptional then m.files.optional.map (fun f => (f, false)) else [])

/-- Destination path of one file of a model:
`models_dir / model['local_path'] / file_path`. -/
def dest_path (models_dir : String) (m : Model) (f : String) : String :=
  models_dir ++ "/" ++ m.local_path ++ "/" ++ f

/-- One completed download task as aggregated by the `as_completed` loop:
the file path, its required tag, and the fetch's return. -/
structure TaskResult where
  file : String
  required : Bool
  fetch : FetchReturn
deriving DecidableEq

/-- The submit-and-collect phase of `download_model` (lines 222-243): resolve
each task's URL (a `ValueError` from `_get_download_url` escapes the function:
`none`), fetch it, and collect the outcomes. The thread pool joins on every
future before the decision, so only the collection matters; tasks are
processed in list order. -/
def run_tasks (models_dir : String) (m : Model) (fs : String → Option Nat)
    (net : String → HttpResult) : List (String × Bool) → Option (List TaskResult)
  | [] => some []
  | (f, req) :: rest =>
    match get_download_url m f with
    | none => none
    | some u =>
      match run_tasks models_dir m fs net rest with
      | none => none
      | some rs =>
        some (⟨f, req, sync_download_file (fs (dest_path models_dir m f)) (net u)⟩ :: rs)

/-- Result of one `download_model` run: the returned flag, the in-memory
registry afterwards, whether `_save_registry` was called (and, since the
persisted document equals the in-memory one, what was written), the number of
fetches that issued a network request, and the collected failed required
files. -/
structure RunResult where
  ok : Bool
  registry : Registry
  persisted : Bool
  networkCalls : Nat
  failedFiles : List String
deriving DecidableEq

/-- Embedding of `download_model` of sync_registry_models.py (lines 166-258): find the
record; short-circuit when already downloaded and not forced; build the task
list; fail on an empty task list; run the fetches; collect failed required
files; on none, mark the status successful and persist, else return failure
with the registry unpersisted. `none` models an escaping `ValueError` from
URL resolution. -/
def download_model (reg : Registry) (model_id : String) (force includeOptional : Bool)
    (models_dir : String) (fs : String → Option Nat) (net : String → HttpResult)
    (today : String) : Option RunResult :=
  match reg.models.find? (fun m => m.id == model_id) with
  | none => some ⟨false, reg, false, 0, []⟩
  | some m =>
    if !force && statusDownloaded m then
      some ⟨true, reg, false, 0, []⟩
    else
      let tasks := collect_tasks m includeOptional
      if tasks.isEmpty then
        some ⟨false, reg, false, 0, []⟩
      else
        match run_tasks models_dir m fs net tasks with
        | none => none
        | some rs =>
          let failed := (rs.filter (fun t => t.required && !t.fetch.success)).map
            (fun t => t.file)
          let nCalls := (rs.filter (fun t => t.fetch.networkUsed)).length
          let regSuccess : Registry :=
            { reg with models := (replace_first reg.models model_id
                (fun x => set_status_success x today)) }
          let regFailed : Registry :=
            { reg with models := replace_first reg.models model_id ensure_status }
          if failed.isEmpty then
            some ⟨true, regSuccess, true, nCalls, []⟩
          else
            some ⟨false, regFailed, false, nCalls, failed⟩

/-- Embedding of `if self.hf_token and 'huggingface.co' in url`: Python truthiness of the
token string — `None` and the empty string are falsy. -/
def tokenTruthy : Option String → Bool
  | none => false
  | some t => !(t == "")

/-- Whether `needle` is a prefix of `hay` (character lists). -/
def starts_with : List Char → List Char → Bool
  | [], _ => true
  | _ :: _, [] => false
  | a :: as, b :: bs => a == b && starts_with as bs

/-- Whether `needle` occurs contiguously in `hay` (character lists);
`needle in hay` of Python. -/
def has_sub (needle : List Char) : List Char → Bool
  | [] => starts_with needle []
  | b :: bs => starts_with needle (b :: bs) || has_sub needle bs

/-- Python's `'needle' in hay` on strings. -/
def str_has_sub (hay needle : String) : Bool :=
  has_sub needle.toList hay.toList

/-- The auth-header decision of both fetchers (sync_registry_models.py lines
126-128, add_new_model.py lines 161-163): attach `Authorization: Bearer <t>`
iff the token is truthy and the literal `'huggingface.co'` occurs anywhere in
the URL string. -/
def attach_auth (hf_token : Option String) (url : String) : Bool :=
  tokenTruthy hf_token && str_has_sub url "huggingface.co"

/-- The host component of a URL of the form `scheme://host/…`. Modelled from
the claim's notion of "the URL's host" (the code itself never parses the host
out of the download URL). -/
def url_host (url : String) : String :=
  String.mk ((((url.toList).dropWhile (fun c => !(c == '/'))).drop 2).takeWhile
    (fun c => !(c == '/')))

/-- The resolved URL the claim about huggingface models asserts: host, author,
repository, `resolve`, the record's branch defaulting to `main`, and the file
path. Modelled from the spec's words, for comparison with
`get_download_url`. -/
def spec_hf_url (author repo : String) (branch : Option String) (f : String) : String :=
  "https://huggingface.co/" ++
    (author ++ "/" ++ repo ++ ("/resolve/" ++ branch.getD "main" ++ "/") ++ f)

/-- Base name of a relative path: the part after the last `/`. Modelled from
the spec's words "the file's base name", for comparison with
`get_download_url`. -/
def base_name (f : String) : String :=
  String.mk ((f.toList.reverse.takeWhile (fun c => !(c == '/'))).reverse)

/-- The release-asset URL the claim about the special-cased github repository
asserts: the release tag and the file's base name. Modelled from the spec's
words, for comparison with `get_download_url`. -/
def spec_release_url (author repo release f : String) : String :=
  "https://github.com/" ++ (author ++ "/" ++ repo ++ "/releases/download/" ++
    release ++ "/" ++ base_name f)

/-! Concrete fixtures used by witnesses and counterexamples. -/

/-- An all-zero statistics object. -/
def statsZero : Statistics := ⟨0, ⟨0, 0, 0, 0, 0⟩, ⟨0, 0, 0⟩, 0, 0, 0⟩

/-- A statistics object inconsistent with a one-model list:
`downloaded_models + pending_models = 12`. -/
def statsStale : Statistics := ⟨1, ⟨1, 0, 0, 0, 0⟩, ⟨1, 0, 0⟩, 39, 5, 7⟩

/-- Statistics consistent with one fully downloaded model. -/
def statsOne : Statistics := ⟨1, ⟨1, 0, 0, 0, 0⟩, ⟨1, 0, 0⟩, 39, 1, 0⟩

/-- A huggingface model record marked fully downloaded. -/
def mdlDownloaded : Model :=
  { id := "whisper-tiny", name := "Whisper Tiny", type := some "asr"
    source := ⟨"huggingface", "Xenova", "whisper-tiny", none, none⟩
    local_path := "huggingface/Xenova/whisper-tiny"
    files := ⟨["config.json", "tokenizer.json"], ["normalizer.json"]⟩
    status := some ⟨true, true, "2024-01-01"⟩
    size_mb := 39 }

/-- The same record, not yet downloaded. -/
def mdlPending : Model :=
  { mdlDownloaded with id := "whisper-pending", status := some ⟨false, false, ""⟩ }

/-- A pending record whose file manifest is empty. -/
def mdlNoFiles : Model :=
  { mdlPending with id := "no-files", files := ⟨[], []⟩ }

/-- A huggingface record whose `branch` field is set to `dev`. -/
def mdlBranchDev : Model :=
  { mdlPending with
    id := "dev-model"
    source := ⟨"huggingface", "acme", "repo", some "dev", none⟩ }

/-- A github openWakeWord record with a release tag and a file path that
contains a directory component. -/
def mdlOww : Model :=
  { mdlPending with
    id := "hey-jarvis"
    source := ⟨"github", "dscripka", "openWakeWord", none, some "v0.5.1"⟩
    local_path := "github/dscripka/openWakeWord"
    files := ⟨["a/b.onnx"], []⟩ }

/-- Registry holding the pending model together with stale statistics. -/
def regStale : Registry := ⟨[mdlPending], statsStale, "2024-01-01"⟩

/-- Registry holding the empty-manifest model. -/
def regNoFiles : Registry := ⟨[mdlNoFiles], statsZero, "2024-01-01"⟩

/-- Registry holding the downloaded model with consistent statistics. -/
def regDownloaded : Registry := ⟨[mdlDownloaded], statsOne, "2024-01-01"⟩

/-- A filesystem with no files. -/
def fsEmpty : String → Option Nat := fun _ => none

/-- A filesystem where every path holds a one-byte file. -/
def fsAll : String → Option Nat := fun _ => some 1

/-- A filesystem holding only the downloaded model's `config.json`. -/
def fsConfigOnly : String → Option Nat := fun p =>
  if p = "models/huggingface/Xenova/whisper-tiny/config.json" then some 10 else none

/-- A network where every GET succeeds with a one-byte body. -/
def netOk : String → HttpResult := fun _ => .response 200 (.full 1)

/-- A network where every GET answers 404. -/
def net404 : String → HttpResult := fun _ => .response 404 (.full 0)

/-- The URL `_get_download_url` yields for a model's file, with the
`ValueError` case collapsed to the empty string (used only where resolution
is known to succeed). -/
def url_of (m : Model) (f : String) : String :=
  (get_download_url m f).getD ""

/-- Whether the fetch of one file of a model succeeds, given the filesystem
and network oracles: the success flag of `_download_file` on the file's
destination and resolved URL. -/
def fetch_ok (models_dir : String) (m : Model) (fs : String → Option Nat)
    (net : String → HttpResult) (f : String) : Bool :=
  (sync_download_file (fs (dest_path models_dir m f)) (net (url_of m f))).success

/-- The set (in manifest order) of required files of a model whose fetch
fails, given the filesystem and network oracles. -/
def failed_required (models_dir : String) (m : Model) (fs : String → Option Nat)
    (net : String → HttpResult) : List String :=
  m.files.required.filter (fun f => !(fetch_ok models_dir m fs net f))

/-! Helper lemmas. -/

/-- The function `replace_first` preserves the length of the model list. -/
theorem replace_first_length (l : List Model) (model_id : String) (f : Model → Model) :
    (replace_first l model_id f).length = l.length := by
  induction l with
  | nil => rfl
  | cons m rest ih =>
    simp only [replace_first]
    by_cases h : m.id == model_id <;> simp [h, ih]

/-- Creating an empty status dict does not change the downloaded flag read
through defaults. -/
theorem ensure_status_downloaded (m : Model) :
    statusDownloaded (ensure_status m) = statusDownloaded m := by
  cases h : m.status <;> simp [ensure_status, statusDownloaded, h]

/-- Applying `ensure_status` to the first matching record preserves every
record's downloaded flag. -/
theorem replace_first_map_status (l : List Model) (model_id : String) :
    (replace_first l model_id ensure_status).map statusDownloaded =
      l.map statusDownloaded := by
  induction l with
  | nil => rfl
  | cons m rest ih =>
    simp only [replace_first]
    by_cases h : m.id == model_id <;> simp [h, ih, ensure_status_downloaded]

/-! Theorems for the claims. -/

/-- C4 (counterexample): `download_file` of add_new_model.py, fed a 2xx
response whose stream fails after 5 partial bytes on a previously absent
destination, returns failure while leaving a 5-byte file at the
destination — a failed fetch leaves a truncated file. -/
theorem c4_counterexample :
    anm_download_file none (.response 200 (.interrupted 5)) =
      ⟨false, some 5, .otherFail⟩ := by decide

/-- C4 (amended): `_download_file` of sync_registry_models.py removes the
destination on every failure — after any failed fetch the destination does
not exist; but `download_file` of add_new_model.py performs no cleanup: a
stream failure after `k` partial bytes returns failure with a `k`-byte file
left at the destination. -/
theorem c4_cleanup_on_failure :
    (∀ dest r, (sync_download_file dest r).success = false →
      (sync_download_file dest r).fsAfter = none) ∧
    (∀ dest k, (anm_download_file dest (.response 200 (.interrupted k))).ret = false ∧
      (anm_download_file dest (.response 200 (.interrupted k))).fsAfter = some k) := by
  constructor
  · intro dest r
    cases dest with
    | some n => simp [sync_download_file]
    | none =>
      cases r with
      | noResponse => simp [sync_download_file]
      | response s b =>
        by_cases h : 400 ≤ s
        · simp [sync_download_file, h]
        · cases b <;> simp [sync_download_file, h]
  · intro dest k
    simp [anm_download_file]

/-- C4 (witness): the amended theorem applied to a concrete failed fetch. -/
theorem c4_cleanup_witness :
    (sync_download_file none HttpResult.noResponse).success = false ∧
    (sync_download_file none HttpResult.noResponse).fsAfter = none :=
  ⟨by decide, c4_cleanup_on_failure.1 none HttpResult.noResponse (by decide)⟩

/-- C5: for a model record whose `status.downloaded` is true, `download_model`
with `force = false` returns success immediately: zero network calls, no
persist, and the in-memory registry unchanged (hence the document byte-for-byte
stable — sync_registry_models.py never touches `last_updated`). -/
theorem c5_short_circuit_noop (reg : Registry) (model_id : String) (m : Model)
    (includeOptional : Bool) (models_dir : String) (fs : String → Option Nat)
    (net : String → HttpResult) (today : String)
    (hfind : reg.models.find? (fun x => x.id == model_id) = some m)
    (hdl : statusDownloaded m = true) :
    download_model reg model_id false includeOptional models_dir fs net today =
      some ⟨true, reg, false, 0, []⟩ := by
  simp [download_model, hfind, hdl]

/-- C5 (witness): the short-circuit theorem applied to a concrete registry
holding a downloaded model. -/
theorem c5_short_circuit_witness :
    regDownloaded.models.find? (fun x => x.id == "whisper-tiny") = some mdlDownloaded ∧
    statusDownloaded mdlDownloaded = true ∧
    download_model regDownloaded "whisper-tiny" false false "models" fsEmpty netOk
      "2024-02-02" = some ⟨true, regDownloaded, false, 0, []⟩ :=
  ⟨by decide, by decide,
    c5_short_circuit_noop regDownloaded "whisper-tiny" mdlDownloaded false "models"
      fsEmpty netOk "2024-02-02" (by decide) (by decide)⟩

/-- C7 (counterexample): the value `download_file` of add_new_model.py hands
back to its caller is the same (`False`, destination untouched) for a 404 as
for a 500 — the caller cannot tell a missing remote file apart from another
HTTP failure. -/
theorem c7_counterexample :
    (anm_download_file none (.response 404 (.full 0))).ret =
      (anm_download_file none (.response 500 (.full 0))).ret ∧
    (anm_download_file none (.response 404 (.full 0))).fsAfter =
      (anm_download_file none (.response 500 (.full 0))).fsAfter := by decide

/-- C7 (amended): on a non-2xx response, add_new_model.py's fetcher prints
the distinct "(not found)" skip marker exactly when the status is 404 and a
generic HTTP-failure marker otherwise, but its return value to the caller is
the same `false` for every such status. -/
theorem c7_notfound_report (dest : Option Nat) (status : Nat) (body : Body)
    (h4 : 400 ≤ status) :
    ((anm_download_file dest (.response status body)).printed =
        AnmReport.notFoundSkip ↔ status = 404) ∧
    (anm_download_file dest (.response status body)).ret = false := by
  by_cases hs : status = 404 <;> simp [anm_download_file, h4, hs]

/-- C7 (witness): the report theorem applied to a concrete 404 response. -/
theorem c7_notfound_witness :
    ((anm_download_file none (.response 404 (.full 0))).printed =
        AnmReport.notFoundSkip ↔ (404 : Nat) = 404) ∧
    (anm_download_file none (.response 404 (.full 0))).ret = false :=
  c7_notfound_report none 404 (.full 0) (by decide)

/-- C1 (counterexample): running `download_model` of sync_registry_models.py
to success on a registry whose statistics are stale persists the registry
(`persisted = true`) with the statistics carried over unchanged:
`downloaded_models + pending_models = 12` in the persisted document while the
models sequence has length 1 — a persist of `models` without refreshing
`statistics`. -/
theorem c1_counterexample :
    (download_model regStale "whisper-pending" false false "models" fsEmpty netOk
        "2024-02-02").map
      (fun r => (r.persisted,
        r.registry.statistics.downloaded_models + r.registry.statistics.pending_models,
        r.registry.models.length)) = some (true, 12, 1) := by decide

/-- C1 (amended): add_new_model.py's orchestration persists only through
`_update_statistics` followed by `_save_registry`, after which
`downloaded_models + pending_models` equals the number of model records;
sync_registry_models.py's `download_model` persists with the `statistics`
field carried over unchanged from the loaded document (while preserving the
model count), so after its persist the invariant holds only if the loaded
document already satisfied it. -/
theorem c1_stats_on_persist :
    (∀ reg today,
      (anm_finalize reg today).statistics.downloaded_models +
          (anm_finalize reg today).statistics.pending_models =
        (anm_finalize reg today).models.length) ∧
    (∀ reg model_id force includeOptional models_dir fs net today r,
      download_model reg model_id force includeOptional models_dir fs net today =
        some r →
      r.registry.statistics = reg.statistics ∧
      r.registry.models.length = reg.models.length) := by
  constructor
  · intro reg today
    have hle := List.length_filter_le (fun m => statusDownloaded m) reg.models
    simp [anm_finalize, anm_save_registry, update_statistics]
    omega
  · intro reg model_id force includeOptional models_dir fs net today r h
    simp only [download_model] at h
    split at h
    · simp only [Option.some.injEq] at h
      subst h
      exact ⟨rfl, rfl⟩
    · split at h
      · simp only [Option.some.injEq] at h
        subst h
        exact ⟨rfl, rfl⟩
      · split at h
        · simp only [Option.some.injEq] at h
          subst h
          exact ⟨rfl, rfl⟩
        · split at h
          · exact absurd h (by simp)
          · split at h <;>
              · simp only [Option.some.injEq] at h
                subst h
                exact ⟨rfl, by simp [replace_first_length]⟩

/-- C1 (witness): the amended theorem applied to the stale registry and a
concrete successful run. -/
theorem c1_stats_witness :
    (anm_finalize regStale "2024-02-02").statistics.downloaded_models +
        (anm_finalize regStale "2024-02-02").statistics.pending_models =
      (anm_finalize regStale "2024-02-02").models.length ∧
    (RunResult.mk true
        { regStale with models := [set_status_success mdlPending "2024-02-02"] }
        true 2 []).registry.statistics = regStale.statistics :=
  ⟨c1_stats_on_persist.1 regStale "2024-02-02",
   (c1_stats_on_persist.2 regStale "whisper-pending" false false "models" fsEmpty netOk
      "2024-02-02"
      ⟨true, { regStale with models := [set_status_success mdlPending "2024-02-02"] },
        true, 2, []⟩ (by decide)).1⟩

/-- C3 (counterexample): a huggingface record whose `branch` field is `dev`
resolves to the `main` URL, not to the claimed URL built from the record's
branch field. -/
theorem c3_counterexample :
    get_download_url mdlBranchDev "model.onnx" ≠
      some (spec_hf_url "acme" "repo" (some "dev") "model.onnx") := by decide

/-- C3 (amended): `_get_download_url` of sync_registry_models.py resolves a
huggingface file to the claimed URL with the branch treated as always unset
(hard-coded `main`, the record's `branch` field ignored); `build_file_url` of
add_new_model.py matches the claimed URL for the branch it is passed, but its
callers always pass the default `main`. -/
theorem c3_hf_url_ignores_branch :
    (∀ m f, m.source.platform = "huggingface" →
      get_download_url m f =
        some (spec_hf_url m.source.author m.source.repository none f)) ∧
    (∀ owner model f branch,
      build_file_url owner model f branch = spec_hf_url owner model (some branch) f) := by
  constructor
  · intro m f hp
    unfold get_download_url
    rw [hp, if_pos rfl]
    rfl
  · intro owner model f branch
    rfl

/-- C3 (witness): the amended theorem applied to a concrete huggingface
record. -/
theorem c3_hf_url_witness :
    mdlDownloaded.source.platform = "huggingface" ∧
    get_download_url mdlDownloaded "config.json" =
      some (spec_hf_url mdlDownloaded.source.author mdlDownloaded.source.repository
        none "config.json") :=
  ⟨rfl, c3_hf_url_ignores_branch.1 mdlDownloaded "config.json" rfl⟩

/-- Filtering a mapped list filters the originals by the composed
predicate. -/
theorem filter_over_map {α β : Type} (p : β → Bool) (g : α → β) (l : List α) :
    (l.map g).filter p = (l.filter (fun a => p (g a))).map g := by
  induction l with
  | nil => rfl
  | cons a l ih => by_cases h : p (g a) <;> simp [h, ih]

/-- When every file of the model resolves to a URL, the submit-and-collect
phase returns one `TaskResult` per task, in order, each holding the fetch of
the task's destination and resolved URL. -/
theorem run_tasks_resolved (models_dir : String) (m : Model) (fs : String → Option Nat)
    (net : String → HttpResult)
    (hurl : ∀ f, (get_download_url m f).isSome) (l : List (String × Bool)) :
    run_tasks models_dir m fs net l =
      some (l.map (fun p =>
        ⟨p.1, p.2, sync_download_file (fs (dest_path models_dir m p.1))
          (net (url_of m p.1))⟩)) := by
  induction l with
  | nil => rfl
  | cons hd tl ih =>
    obtain ⟨f, req⟩ := hd
    obtain ⟨u, hu⟩ := Option.isSome_iff_exists.mp (hurl f)
    simp [run_tasks, hu, ih, url_of]

/-- The failed-required list collected from the task results equals
`failed_required`: only required files enter it, optional outcomes are
dropped. -/
theorem failed_of_tasks (models_dir : String) (m : Model) (fs : String → Option Nat)
    (net : String → HttpResult) (io : Bool) :
    ((((collect_tasks m io).map (fun p =>
        (⟨p.1, p.2, sync_download_file (fs (dest_path models_dir m p.1))
          (net (url_of m p.1))⟩ : TaskResult))).filter
      (fun t => t.required && !t.fetch.success)).map (fun t => t.file)) =
    failed_required models_dir m fs net := by
  simp only [collect_tasks, List.map_append, List.filter_append, List.map_append,
    List.map_map, filter_over_map, failed_required, fetch_ok]
  cases io <;> simp [Function.comp_def, filter_over_map]

/-- C2 (counterexample): a model record with an empty file manifest (neither
required nor optional files), not yet downloaded: the run's set of failed
required files is empty, yet `download_model` reports failure — refuting
"Complete if and only if the set of failed required files is empty" as a
statement over every model record. -/
theorem c2_counterexample :
    download_model regNoFiles "no-files" false true "models" fsEmpty netOk
        "2024-02-02" =
      some ⟨false, regNoFiles, false, 0, []⟩ := by decide

/-- C2 (amended): provided the task list is nonempty (the code reports a
distinct "no files specified" failure otherwise) and the run is not
short-circuited, the outcome of one orchestration run is Complete iff the set
of failed required files is empty; optional-file failures never affect the
outcome, and the reported failed list is exactly the failed required files. -/
theorem c2_outcome_iff (reg : Registry) (model_id : String) (m : Model)
    (force includeOptional : Bool) (models_dir : String) (fs : String → Option Nat)
    (net : String → HttpResult) (today : String)
    (hfind : reg.models.find? (fun x => x.id == model_id) = some m)
    (hsc : force = true ∨ statusDownloaded m = false)
    (hne : collect_tasks m includeOptional ≠ [])
    (hurl : ∀ f, (get_download_url m f).isSome) :
    ∃ r, download_model reg model_id force includeOptional models_dir fs net today =
        some r ∧
      r.failedFiles = failed_required models_dir m fs net ∧
      (r.ok = true ↔ failed_required models_dir m fs net = []) := by
  have hcond : (!force && statusDownloaded m) = false := by
    rcases hsc with h | h <;> simp [h]
  have hempty : (collect_tasks m includeOptional).isEmpty = false := by
    cases hcl : collect_tasks m includeOptional with
    | nil => exact absurd hcl hne
    | cons a l => rfl
  simp only [download_model, hfind, hcond, hempty, Bool.false_eq_true, if_false,
    run_tasks_resolved models_dir m fs net hurl, failed_of_tasks]
  by_cases hf : failed_required models_dir m fs net = []
  · simp only [hf, List.isEmpty_nil, if_true]
    exact ⟨_, rfl, by simp [hf], by simp [hf]⟩
  · have hb : (failed_required models_dir m fs net).isEmpty = false := by
      cases hq : failed_required models_dir m fs net with
      | nil => exact absurd hq hf
      | cons a l => rfl
    simp only [hb, Bool.false_eq_true, if_false]
    exact ⟨_, rfl, rfl, by simp [hf]⟩

/-- C2 (witness): the amended theorem applied to a concrete run where the
required `tokenizer.json` fails with 404 while the required `config.json` is
already on disk. -/
theorem c2_outcome_witness :
    regStale.models.find? (fun x => x.id == "whisper-pending") = some mdlPending ∧
    (∃ r, download_model regStale "whisper-pending" false false "models" fsConfigOnly
        net404 "2024-02-02" = some r ∧
      r.failedFiles = failed_required "models" mdlPending fsConfigOnly net404 ∧
      (r.ok = true ↔ failed_required "models" mdlPending fsConfigOnly net404 = [])) :=
  ⟨by decide,
    c2_outcome_iff regStale "whisper-pending" mdlPending false false "models"
      fsConfigOnly net404 "2024-02-02" (by decide) (Or.inr (by decide)) (by decide)
      (fun f => rfl)⟩

/-- A prefix of `l` is still a prefix of `l ++ s`. -/
theorem starts_with_append (n l s : List Char) (h : starts_with n l = true) :
    starts_with n (l ++ s) = true := by
  induction n generalizing l with
  | nil => rfl
  | cons a as ih =>
    cases l with
    | nil => simp [starts_with] at h
    | cons b bs =>
      simp [starts_with] at h ⊢
      exact ⟨h.1, ih bs h.2⟩

/-- The empty needle occurs in every haystack. -/
theorem has_sub_nil_needle (s : List Char) : has_sub [] s = true := by
  cases s <;> simp [has_sub, starts_with]

/-- An occurrence in `p` is an occurrence in `p ++ s`. -/
theorem has_sub_append (n p s : List Char) (h : has_sub n p = true) :
    has_sub n (p ++ s) = true := by
  induction p with
  | nil =>
    cases n with
    | nil => simpa using has_sub_nil_needle s
    | cons a as => simp [has_sub, starts_with] at h
  | cons b bs ih =>
    simp only [has_sub, Bool.or_eq_true] at h
    rcases h with h | h
    · simpa [has_sub] using Or.inl (starts_with_append n (b :: bs) s h)
    · simpa [has_sub] using Or.inr (ih h)

/-- A substring of a string is a substring of every right-extension of it. -/
theorem str_has_sub_of_prefix (p s needle : String)
    (h : str_has_sub p needle = true) : str_has_sub (p ++ s) needle = true := by
  unfold str_has_sub at h ⊢
  have hl : (p ++ s).toList = p.toList ++ s.toList := rfl
  rw [hl]
  exact has_sub_append _ _ _ h

/-- C6 (counterexample): the fetchers' check is a substring test on the whole
URL, not a host comparison: with a configured token, a URL whose host is
`evil.example` but whose path mentions `huggingface.co` receives the bearer
token. -/
theorem c6_counterexample :
    attach_auth (some "tok") "https://evil.example/huggingface.co/x" = true ∧
    url_host "https://evil.example/huggingface.co/x" ≠ "huggingface.co" := by decide

/-- C6 (amended): the bearer token is attached iff a token is configured
(nonempty) and the literal `huggingface.co` occurs anywhere in the URL
string: never without a truthy token, never when the URL does not contain the
substring, and always on every URL the resolver produces for a huggingface
model — but the test is a substring match, not a host match. -/
theorem c6_token_substring :
    (∀ token url, tokenTruthy token = false → attach_auth token url = false) ∧
    (∀ token m f u, tokenTruthy token = true → m.source.platform = "huggingface" →
      get_download_url m f = some u → attach_auth token u = true) ∧
    (∀ token url, str_has_sub url "huggingface.co" = false →
      attach_auth token url = false) := by
  refine ⟨fun token url h => by simp [attach_auth, h], ?_,
    fun token url h => by simp [attach_auth, h]⟩
  intro token m f u htok hp hu
  unfold get_download_url at hu
  rw [hp, if_pos rfl] at hu
  simp only [Option.some.injEq] at hu
  subst hu
  simp only [attach_auth, htok, Bool.true_and]
  exact str_has_sub_of_prefix "https://huggingface.co/" _ _ (by decide)

/-- C6 (witness): the amended theorem applied to a configured token and a
concrete resolver-produced huggingface URL. -/
theorem c6_token_witness :
    tokenTruthy (some "tok") = true ∧
    attach_auth (some "tok")
      "https://huggingface.co/Xenova/whisper-tiny/resolve/main/config.json" = true :=
  ⟨by decide,
    c6_token_substring.2.1 (some "tok") mdlDownloaded "config.json"
      "https://huggingface.co/Xenova/whisper-tiny/resolve/main/config.json"
      (by decide) rfl (by decide)⟩

/-- C8 (counterexample): the spec's scenario — previously downloaded model,
`tokenizer.json` gone from disk, remote answering 404 (run with `force` so
fetches happen). `download_model` reports Failed naming `tokenizer.json`, but
it does not persist, does not record the failure in the document, and the
statistics — `pending_models = 0` — are untouched rather than increased by
one. -/
theorem c8_counterexample :
    download_model regDownloaded "whisper-tiny" true false "models" fsConfigOnly
        net404 "2024-02-02" =
      some ⟨false, regDownloaded, false, 1, ["tokenizer.json"]⟩ := by decide

/-- C8 (amended): on a Failed outcome sync_registry_models.py leaves every
record's `status.downloaded` flag unchanged (a previously-true flag is never
flipped) and returns the failed required files, but it neither recomputes
statistics nor persists the registry: the statistics field is exactly the
loaded one and `_save_registry` is not called. -/
theorem c8_failed_leaves_registry (reg : Registry) (model_id : String)
    (force includeOptional : Bool) (models_dir : String) (fs : String → Option Nat)
    (net : String → HttpResult) (today : String) (r : RunResult)
    (h : download_model reg model_id force includeOptional models_dir fs net today =
      some r)
    (hfail : r.ok = false) :
    r.persisted = false ∧
    r.registry.statistics = reg.statistics ∧
    r.registry.models.map statusDownloaded = reg.models.map statusDownloaded := by
  simp only [download_model] at h
  split at h
  · simp only [Option.some.injEq] at h
    subst h
    exact ⟨rfl, rfl, rfl⟩
  · split at h
    · simp only [Option.some.injEq] at h
      subst h
      simp at hfail
    · split at h
      · simp only [Option.some.injEq] at h
        subst h
        exact ⟨rfl, rfl, rfl⟩
      · split at h
        · exact absurd h (by simp)
        · split at h
          · simp only [Option.some.injEq] at h
            subst h
            simp at hfail
          · simp only [Option.some.injEq] at h
            subst h
            exact ⟨rfl, rfl, replace_first_map_status reg.models model_id⟩

/-- C8 (witness): the amended theorem applied to the concrete Failed run of
the counterexample scenario. -/
theorem c8_failed_witness :
    (RunResult.mk false regDownloaded false 1 ["tokenizer.json"]).persisted = false ∧
    (RunResult.mk false regDownloaded false 1 ["tokenizer.json"]).registry.statistics =
      regDownloaded.statistics ∧
    (RunResult.mk false regDownloaded false 1
        ["tokenizer.json"]).registry.models.map statusDownloaded =
      regDownloaded.models.map statusDownloaded :=
  c8_failed_leaves_registry regDownloaded "whisper-tiny" true false "models"
    fsConfigOnly net404 "2024-02-02" ⟨false, regDownloaded, false, 1, ["tokenizer.json"]⟩
    (by decide) rfl

/-- C9 (counterexample): for the release-distributed repository with release
tag `v0.5.1` and the file `a/b.onnx`, the resolver targets the full relative
path, not the file's base name as the claim states. -/
theorem c9_counterexample :
    get_download_url mdlOww "a/b.onnx" ≠
      some (spec_release_url "dscripka" "openWakeWord" "v0.5.1" "a/b.onnx") := by decide

/-- C9 (amended): github URL resolution of sync_registry_models.py — a
generic repository resolves to the raw host with the record's branch
(default `main`); the `openWakeWord` repository with a release tag set and
not `latest` resolves to the release-asset download path for that tag and
the file's full relative path (not its base name); otherwise it falls back
to the `github.com/<author>/<repo>/raw/<branch>/models/<path>` tree path. -/
theorem c9_github_urls :
    (∀ m f, m.source.platform = "github" → m.source.repository ≠ "openWakeWord" →
      get_download_url m f = some ("https://raw.githubusercontent.com/" ++
        (m.source.author ++ "/" ++ m.source.repository ++ "/" ++
          m.source.branch.getD "main" ++ "/" ++ f))) ∧
    (∀ m f rel, m.source.platform = "github" → m.source.repository = "openWakeWord" →
      m.source.release = some rel → rel ≠ "latest" →
      get_download_url m f = some ("https://github.com/" ++
        (m.source.author ++ "/" ++ m.source.repository ++ "/releases/download/" ++
          rel ++ "/" ++ f))) ∧
    (∀ m f, m.source.platform = "github" → m.source.repository = "openWakeWord" →
      m.source.release.getD "latest" = "latest" →
      get_download_url m f = some ("https://github.com/" ++
        (m.source.author ++ "/" ++ m.source.repository ++ "/raw/" ++
          m.source.branch.getD "main" ++ "/models/" ++ f))) := by
  refine ⟨?_, ?_, ?_⟩
  · intro m f hp hrepo
    simp [get_download_url, hp, hrepo]
  · intro m f rel hp hrepo hrel hne
    simp [get_download_url, hp, hrepo, hrel, hne]
  · intro m f hp hrepo hlat
    simp [get_download_url, hp, hrepo, hlat]

/-- C9 (witness): the release-tag branch of the amended theorem applied to
the concrete openWakeWord record and a file path with a directory
component. -/
theorem c9_github_witness :
    mdlOww.source.platform = "github" ∧
    mdlOww.source.repository = "openWakeWord" ∧
    mdlOww.source.release = some "v0.5.1" ∧
    get_download_url mdlOww "a/b.onnx" = some ("https://github.com/" ++
      (mdlOww.source.author ++ "/" ++ mdlOww.source.repository ++
        "/releases/download/" ++ "v0.5.1" ++ "/" ++ "a/b.onnx")) :=
  ⟨rfl, rfl, rfl,
    c9_github_urls.2.1 mdlOww "a/b.onnx" "v0.5.1" rfl rfl rfl (by decide)⟩

/-- When every destination already holds a file, no task issues a network
request. -/
theorem run_tasks_no_network (models_dir : String) (m : Model)
    (fs : String → Option Nat) (net : String → HttpResult)
    (hfs : ∀ p, (fs p).isSome) :
    ∀ l rs, run_tasks models_dir m fs net l = some rs →
      rs.filter (fun t => t.fetch.networkUsed) = [] := by
  intro l
  induction l with
  | nil =>
    intro rs h
    simp only [run_tasks, Option.some.injEq] at h
    subst h
    rfl
  | cons hd tl ih =>
    intro rs h
    obtain ⟨f, req⟩ := hd
    simp only [run_tasks] at h
    split at h
    · exact absurd h (by simp)
    · split at h
      · exact absurd h (by simp)
      · simp only [Option.some.injEq] at h
        subst h
        obtain ⟨n, hn⟩ := Option.isSome_iff_exists.mp
          (hfs (dest_path models_dir m f))
        rw [List.filter_cons]
        simp only [hn, sync_download_file]
        exact ih _ (by assumption)

/-- C10: the per-file fetcher of sync_registry_models.py succeeds immediately
on an existing destination — "already exists", content untouched, no network
request — for every fetch disposition; `download_model` behaves identically
under `force = true` and `force = false` whenever the record is not marked
downloaded (the flag only bypasses the model-level short-circuit and is never
passed to the fetcher); and a run over a filesystem where every destination
exists issues zero network requests for any force flag. -/
theorem c10_force_not_passed_down :
    (∀ n r, sync_download_file (some n) r =
      ⟨true, SyncMsg.alreadyExists, some n, false⟩) ∧
    (∀ reg model_id includeOptional models_dir fs net today m,
      reg.models.find? (fun x => x.id == model_id) = some m →
      statusDownloaded m = false →
      download_model reg model_id true includeOptional models_dir fs net today =
        download_model reg model_id false includeOptional models_dir fs net today) ∧
    (∀ reg model_id force includeOptional models_dir fs net today r,
      (∀ p, (fs p).isSome) →
      download_model reg model_id force includeOptional models_dir fs net today =
        some r →
      r.networkCalls = 0) := by
  refine ⟨fun n r => rfl, ?_, ?_⟩
  · intro reg model_id includeOptional models_dir fs net today m hfind hdl
    simp [download_model, hfind, hdl]
  · intro reg model_id force includeOptional models_dir fs net today r hfs h
    simp only [download_model] at h
    split at h
    · simp only [Option.some.injEq] at h
      subst h
      rfl
    · split at h
      · simp only [Option.some.injEq] at h
        subst h
        rfl
      · split at h
        · simp only [Option.some.injEq] at h
          subst h
          rfl
        · split at h
          · exact absurd h (by simp)
          · rename_i rs hrun
            have hnil := run_tasks_no_network models_dir _ fs net hfs _ rs hrun
            split at h <;>
              · simp only [Option.some.injEq] at h
                subst h
                simp [hnil]

/-- C10 (witness): the force-independence part applied to a concrete pending
model, and the zero-network part applied to a run where every destination
exists. -/
theorem c10_force_witness :
    (download_model regStale "whisper-pending" true false "models" fsAll netOk
        "2024-02-02" =
      download_model regStale "whisper-pending" false false "models" fsAll netOk
        "2024-02-02") ∧
    (RunResult.mk true
        { regStale with models := [set_status_success mdlPending "2024-02-02"] }
        true 0 []).networkCalls = 0 :=
  ⟨c10_force_not_passed_down.2.1 regStale "whisper-pending" false "models" fsAll netOk
      "2024-02-02" mdlPending (by decide) (by decide),
    c10_force_not_passed_down.2.2 regStale "whisper-pending" true false "models" fsAll
      netOk "2024-02-02"
      ⟨true, { regStale with models := [set_status_success mdlPending "2024-02-02"] },
        true, 0, []⟩ (fun p => rfl) (by decide)⟩
